import Mathlib

/-!
# Verification of the DDPG agent (`src/agent.py`)

A shallow embedding of the DDPG reinforcement-learning agent from
`src/agent.py`.  Numeric tensors are modelled over `ℚ`; the external
collaborators (the pytorch function approximators from `src/network.py`,
the Adam optimizer, and autograd) are modelled as explicit function
parameters carried in the agent state, exactly as the spec treats them
(opaque state-in/value-out function approximators and an opaque
gradient-step rule).  Randomness (batch sampling, Gaussian exploration
noise) is modelled by oracle arguments: a list of sampled indices, and
the standard-normal draw `z` behind `Normal(0, sigma).sample()`
(reparameterized as `0 + sigma * z`).

Autograd connectivity is modelled by tagging every tensor with the set of
parameter groups reachable in its computation graph (`PTag`); `detach`
erases the tags, and `backward` accumulates gradients exactly into the
parameter groups reachable from the loss, which is pytorch's semantics.
-/

/-- The four parameter groups of the agent; a tensor's autograd graph can
reach any subset of them. -/
inductive PTag
  | actorOn
  | criticOn
  | actorTg
  | criticTg
deriving DecidableEq, Repr

/-- A (single sample) tensor: a vector of rational values plus the set of
parameter groups its autograd graph reaches. -/
structure Tensor where
  vals : List ℚ
  deps : List PTag
deriving DecidableEq, Repr

/-- A batch of vector-valued tensors (one row per sampled transition). -/
structure BVec where
  rows : List (List ℚ)
  deps : List PTag
deriving DecidableEq, Repr

/-- A batch of scalar-valued tensors (one value per sampled transition). -/
structure BScalar where
  vals : List ℚ
  deps : List PTag
deriving DecidableEq, Repr

/-- A scalar tensor (a loss value). -/
structure STensor where
  val : ℚ
  deps : List PTag
deriving DecidableEq, Repr

/-- Elementwise sum of two batches; the result's graph reaches both
operands' parameter groups. -/
def BScalar.add (x y : BScalar) : BScalar :=
  ⟨List.zipWith (· + ·) x.vals y.vals, x.deps ++ y.deps⟩

/-- Elementwise product of two batches. -/
def BScalar.mul (x y : BScalar) : BScalar :=
  ⟨List.zipWith (· * ·) x.vals y.vals, x.deps ++ y.deps⟩

/-- Elementwise difference of two batches. -/
def BScalar.sub (x y : BScalar) : BScalar :=
  ⟨List.zipWith (· - ·) x.vals y.vals, x.deps ++ y.deps⟩

/-- Scalar times batch (the `self.gamma *` factor). -/
def BScalar.smul (c : ℚ) (x : BScalar) : BScalar :=
  ⟨x.vals.map (fun v => c * v), x.deps⟩

/-- `1 - dones`, elementwise. -/
def BScalar.oneSub (x : BScalar) : BScalar :=
  ⟨x.vals.map (fun v => 1 - v), x.deps⟩

/-- `.pow(2)`, elementwise. -/
def BScalar.pow2 (x : BScalar) : BScalar :=
  ⟨x.vals.map (fun v => v * v), x.deps⟩

/-- `.detach()`: same values, cut loose from the autograd graph. -/
def BScalar.detach (x : BScalar) : BScalar :=
  ⟨x.vals, []⟩

/-- `.mean()`: arithmetic mean of the batch (sum divided by length). -/
def BScalar.mean (x : BScalar) : STensor :=
  ⟨(x.vals.foldr (· + ·) 0) / (x.vals.length : ℚ), x.deps⟩

/-- Negation of a scalar tensor (the leading `-` of the actor loss). -/
def STensor.neg (x : STensor) : STensor :=
  ⟨-x.val, x.deps⟩

/-- `torch.hstack`: row-wise concatenation of two batches of vectors. -/
def hstackB (x y : BVec) : BVec :=
  ⟨List.zipWith (· ++ ·) x.rows y.rows, x.deps ++ y.deps⟩

/-- A pytorch module as the spec's function-approximator collaborator:
a flat parameter vector, its accumulated-gradient buffer, and an opaque
architecture function mapping parameters and an input vector to an output
of type `β` (vector for the actor, scalar value for the critic). -/
structure NNModule (β : Type) where
  params : List ℚ
  grad : List ℚ
  arch : List ℚ → List ℚ → β

/-- The actor maps a state vector to an action vector. -/
abbrev ActorNet := NNModule (List ℚ)

/-- The critic maps a state‖action vector to a scalar value estimate. -/
abbrev CriticNet := NNModule ℚ

/-- Accumulate a gradient contribution into a module's `.grad` buffer
(what `loss.backward()` does to every parameter reachable from the loss). -/
def NNModule.accumGrad {β : Type} (m : NNModule β) (v : List ℚ) : NNModule β :=
  { m with grad := List.zipWith (· + ·) m.grad v }

/-- Forward pass of an actor-shaped module on a batch, tagging the output
with the module's parameter group. -/
def netForwardB (tag : PTag) (m : ActorNet) (x : BVec) : BVec :=
  ⟨x.rows.map (m.arch m.params), x.deps ++ [tag]⟩

/-- Forward pass of a critic-shaped module on a batch, tagging the output
with the module's parameter group. -/
def criticForwardB (tag : PTag) (m : CriticNet) (x : BVec) : BScalar :=
  ⟨x.rows.map (m.arch m.params), x.deps ++ [tag]⟩

/-- Forward pass of the actor on a single state tensor (used by `act`). -/
def netForward1 (tag : PTag) (m : ActorNet) (x : Tensor) : Tensor :=
  ⟨m.arch m.params x.vals, x.deps ++ [tag]⟩

/-- `Normal(0, sigma).sample()` under the reparameterization
`loc + scale * z` with `z` the standard-normal draw; `.sample()` produces
a tensor outside the autograd graph.  The sampled tensor has shape `[1]`
exactly as in the source. -/
def normalSample (loc scale z : ℚ) : Tensor :=
  ⟨[loc + scale * z], []⟩

/-- Broadcast addition of a shape-`[1]` noise tensor onto an action
tensor, as `action + noise` does in the source. -/
def Tensor.addBroadcast (t n : Tensor) : Tensor :=
  ⟨t.vals.map (fun v => v + n.vals.headD 0), t.deps ++ n.deps⟩

/-- `torch.clip(x, lo, hi)`: elementwise `min (max x lo) hi`. -/
def Tensor.clip (t : Tensor) (lo hi : ℚ) : Tensor :=
  ⟨t.vals.map (fun v => min (max v lo) hi), t.deps⟩

/-- `.detach()` on a single tensor. -/
def Tensor.detach (t : Tensor) : Tensor :=
  ⟨t.vals, []⟩

/-- One environment transition, the `namedtuple("Transition", ...)` of
`src/agent.py`. -/
structure Transition where
  state : List ℚ
  action : List ℚ
  reward : ℚ
  next_state : List ℚ
  done : Bool
deriving DecidableEq, Repr

/-- Modelled from the spec: `src/buffer.py` (`ExpReplay`) is imported by
`src/agent.py` but is not among the sources.  Per spec §3/§4.1 it is an
ordered fixed-capacity ring of transitions: `store` appends and evicts the
oldest entry once at capacity, `len` is the occupied count, `clear` empties
it, and `sample n` returns `n` independent uniform draws — modelled here
with an oracle list of drawn indices. -/
structure ExpReplay where
  capacity : ℕ
  data : List Transition
deriving DecidableEq, Repr

/-- Spec §4.1: append; at capacity evict the logically oldest entry. -/
def ExpReplay.store (b : ExpReplay) (t : Transition) : ExpReplay :=
  if b.data.length < b.capacity then ⟨b.capacity, b.data ++ [t]⟩
  else ⟨b.capacity, b.data.tail ++ [t]⟩

/-- Spec §4.1: current occupied count. -/
def ExpReplay.len (b : ExpReplay) : ℕ :=
  b.data.length

/-- Spec §4.1: reset to empty, capacity unchanged. -/
def ExpReplay.clear (b : ExpReplay) : ExpReplay :=
  ⟨b.capacity, []⟩

/-- The placeholder transition (never reached when the index oracle is
in range). -/
def blankTransition : Transition :=
  ⟨[], [], 0, [], false⟩

/-- Spec §4.1: `n` uniform independent draws from the buffer, the
randomness supplied by the `pick` index oracle. -/
def ExpReplay.sample (b : ExpReplay) (n : ℕ) (pick : List ℕ) : List Transition :=
  (List.range n).map (fun j => b.data.getD (pick.getD j 0 % b.data.length) blankTransition)

/-- The Adam optimizer collaborator (`torch.optim.Adam`): a learning
rate, an opaque internal state (moment estimates), and the opaque update
rule `step : state → params → grads → (params', state')` applied by
`optimizer.step()`. -/
structure Optimizer where
  lr : ℚ
  state : List ℚ
  stepFn : List ℚ → List ℚ → List ℚ → List ℚ × List ℚ

/-- The DDPG agent state of `src/agent.py` (class `DDPG`). -/
structure DDPG where
  tau : ℚ
  gamma : ℚ
  batch_size : ℕ
  buffer : ExpReplay
  actor : ActorNet
  critic : CriticNet
  actor_optimizer : Optimizer
  critic_optimizer : Optimizer
  actor_target : ActorNet
  critic_target : CriticNet

/-- `DDPG.__init__` (`src/agent.py:46-76`): fixes `tau = 0.05`, stores the
discount rate and batch size, creates `ExpReplay(10000, ...)`, adopts the
two passed networks, builds one Adam optimizer per network (`adamA`,
`adamC` model the external Adam update rule; a fresh optimizer has empty
state), and snapshots the targets via `deepcopy` (a value copy). -/
def DDPG.init (Actor : ActorNet) (Critic : CriticNet)
    (actor_lr critic_lr : ℚ) (disc_rate : ℚ) (batch_size : ℕ)
    (adamA adamC : List ℚ → List ℚ → List ℚ → List ℚ × List ℚ) : DDPG :=
  { tau := 0.05
    gamma := disc_rate
    batch_size := batch_size
    buffer := ⟨10000, []⟩
    actor := Actor
    critic := Critic
    actor_optimizer := ⟨actor_lr, [], adamA⟩
    critic_optimizer := ⟨critic_lr, [], adamC⟩
    actor_target := Actor
    critic_target := Critic }

/-- `DDPG.reset` (`src/agent.py:78-79`). -/
def DDPG.reset (a : DDPG) : DDPG :=
  { a with buffer := a.buffer.clear }

/-- `DDPG.store` (`src/agent.py:81-82`). -/
def DDPG.store (a : DDPG) (t : Transition) : DDPG :=
  { a with buffer := a.buffer.store t }

/-- `DDPG.act` (`src/agent.py:84-97`): wrap the state in a leaf tensor,
run the actor forward, sample shape-`[1]` Gaussian noise, add it with
broadcasting, clip to `[-2.0, 2.0]` and detach.  `z` is the
standard-normal draw behind `.sample()`. -/
def DDPG.act (a : DDPG) (state : List ℚ) (sigma : ℚ) (z : ℚ) : Tensor :=
  let x : Tensor := ⟨state, []⟩
  let action := netForward1 .actorOn a.actor x
  let noise := normalSample 0 sigma z
  ((action.addBroadcast noise).clip (-2) 2).detach

/-- The blended value computed by each loop iteration of
`polyak_update` (`src/agent.py:104,109`):
`trg_param * (1.0 - self.tau) + src_param * self.tau`. -/
def polyakBlend (tau trg src : ℚ) : ℚ :=
  trg * (1 - tau) + src * tau

/-- `DDPG.polyak_update` (`src/agent.py:99-109`): each loop iteration
computes the blend and rebinds the loop variable `trg_param` to it; the
stored target parameters are never written, so the agent state is
returned unchanged.  The two `let` bindings mirror the two loops'
computed-and-discarded blends. -/
def DDPG.polyak_update (a : DDPG) : DDPG :=
  let _critic_blend :=
    (a.critic_target.params.zip a.critic.params).map
      (fun p => polyakBlend a.tau p.1 p.2)
  let _actor_blend :=
    (a.actor_target.params.zip a.actor.params).map
      (fun p => polyakBlend a.tau p.1 p.2)
  a

/-- Which of the two online networks an optimizer event concerns. -/
inductive NetSide
  | criticN
  | actorN
deriving DecidableEq, Repr

/-- The observable operations of one `update()` call, in program order:
loss computations (each recording the critic parameters in effect when
the loss was built), `zero_grad()`, `backward()` and `step()` calls. -/
inductive Ev
  | critic_loss_ev (criticParams : List ℚ)
  | zero_grad_ev (s : NetSide)
  | backward_ev (s : NetSide)
  | step_ev (s : NetSide)
  | actor_loss_ev (criticParams : List ℚ)
deriving DecidableEq, Repr

/-- `loss.backward()`: accumulate the autograd-produced gradients `g`
into the `.grad` buffer of exactly the parameter groups reachable from
the loss (`deps`). -/
def applyBackward (a : DDPG) (deps : List PTag) (g : PTag → List ℚ) : DDPG :=
  { a with
    actor := if PTag.actorOn ∈ deps then a.actor.accumGrad (g .actorOn) else a.actor
    critic := if PTag.criticOn ∈ deps then a.critic.accumGrad (g .criticOn) else a.critic
    actor_target :=
      if PTag.actorTg ∈ deps then a.actor_target.accumGrad (g .actorTg) else a.actor_target
    critic_target :=
      if PTag.criticTg ∈ deps then a.critic_target.accumGrad (g .criticTg) else a.critic_target }

/-- `src/agent.py:124-130`: the bootstrapped regression target
`y = rewards + self.gamma * (1 - dones) * critic_target(hstack((next_states, next_actions)))`
with `next_actions = actor_target(next_states)` and `dones` the `.long()`
0/1 conversion of the stored booleans. -/
def targetY (a : DDPG) (ts : List Transition) : BScalar :=
  let rewards : BScalar := ⟨ts.map (fun t => t.reward), []⟩
  let dones : BScalar := ⟨ts.map (fun t => if t.done then (1 : ℚ) else 0), []⟩
  let next_states : BVec := ⟨ts.map (fun t => t.next_state), []⟩
  let next_actions := netForwardB .actorTg a.actor_target next_states
  rewards.add
    (((dones.oneSub).smul a.gamma).mul
      (criticForwardB .criticTg a.critic_target (hstackB next_states next_actions)))

/-- `src/agent.py:131-132`: `advantage = critic(hstack([states, actions])) - y.detach()`
and `critic_loss = advantage.pow(2).mean()`. -/
def criticLossOf (a : DDPG) (ts : List Transition) : STensor :=
  let states : BVec := ⟨ts.map (fun t => t.state), []⟩
  let actions : BVec := ⟨ts.map (fun t => t.action), []⟩
  let advantage :=
    (criticForwardB .criticOn a.critic (hstackB states actions)).sub (targetY a ts).detach
  advantage.pow2.mean

/-- `src/agent.py:140`:
`actor_loss = -self.critic(torch.hstack([states, self.actor(states)])).mean()`,
evaluated on the agent state in effect at that line (after the critic
optimizer step). -/
def actorLossOf (a : DDPG) (ts : List Transition) : STensor :=
  let states : BVec := ⟨ts.map (fun t => t.state), []⟩
  ((criticForwardB .criticOn a.critic
      (hstackB states (netForwardB .actorOn a.actor states))).mean).neg

/-- `optimizer.zero_grad()` for the critic optimizer: zero the gradient
buffers of the parameters registered in it (the critic's). -/
def criticZeroGrad (a : DDPG) : DDPG :=
  { a with critic := { a.critic with grad := List.replicate a.critic.params.length 0 } }

/-- `optimizer.zero_grad()` for the actor optimizer. -/
def actorZeroGrad (a : DDPG) : DDPG :=
  { a with actor := { a.actor with grad := List.replicate a.actor.params.length 0 } }

/-- `DDPG.update` (`src/agent.py:111-145`).  `pick` is the sampling
oracle; `gC` and `gA` are the autograd oracles giving, per parameter
group, the gradient of the critic loss and of the actor loss.  Returns
the new agent state and the trace of observable operations in program
order.  If the buffer holds fewer transitions than `batch_size` the call
returns immediately with the state untouched. -/
def DDPG.update (a : DDPG) (pick : List ℕ) (gC gA : PTag → List ℚ) : DDPG × List Ev :=
  if a.buffer.len < a.batch_size then (a, [])
  else
    let transitions := a.buffer.sample a.batch_size pick
    let critic_loss := criticLossOf a transitions
    -- Optimize the critic
    let a1 := criticZeroGrad a
    let a2 := applyBackward a1 critic_loss.deps gC
    let stepC := a2.critic_optimizer.stepFn a2.critic_optimizer.state a2.critic.params a2.critic.grad
    let a3 := { a2 with critic := { a2.critic with params := stepC.1 }
                        critic_optimizer := { a2.critic_optimizer with state := stepC.2 } }
    -- Get actor loss (uses the critic as updated by the step above)
    let actor_loss := actorLossOf a3 transitions
    -- Optimize the actor
    let a4 := actorZeroGrad a3
    let a5 := applyBackward a4 actor_loss.deps gA
    let stepA := a5.actor_optimizer.stepFn a5.actor_optimizer.state a5.actor.params a5.actor.grad
    let a6 := { a5 with actor := { a5.actor with params := stepA.1 }
                        actor_optimizer := { a5.actor_optimizer with state := stepA.2 } }
    (a6, [Ev.critic_loss_ev a.critic.params,
          Ev.zero_grad_ev .criticN, Ev.backward_ev .criticN, Ev.step_ev .criticN,
          Ev.actor_loss_ev a3.critic.params,
          Ev.zero_grad_ev .actorN, Ev.backward_ev .actorN, Ev.step_ev .actorN])

/-- The persisted artifact store: an association list from file name to
serialized blob (a flat list of rationals: a `state_dict`'s numeric
content).  `torch.save` overwrites an existing file, which the
front-consing write together with first-match lookup models. -/
def FS := List (String × List ℚ)

/-- Write (or overwrite) one artifact. -/
def fsWrite (fs : FS) (k : String) (v : List ℚ) : FS :=
  (k, v) :: fs

/-- `torch.load`: `some` blob if the file exists, `none` otherwise
(pytorch raises `FileNotFoundError`). -/
def fsRead (fs : FS) (k : String) : Option (List ℚ) :=
  (List.find? (fun e => e.1 = k) fs).map (fun e => e.2)

/-- `DDPG.save` (`src/agent.py:147-152`): four `torch.save` calls, in
source order, keyed by `filename` plus each artifact suffix. -/
def DDPG.save (a : DDPG) (filename : String) (fs : FS) : FS :=
  let fs1 := fsWrite fs (filename ++ "_critic") a.critic.params
  let fs2 := fsWrite fs1 (filename ++ "_critic_hyp_params") a.critic_optimizer.state
  let fs3 := fsWrite fs2 (filename ++ "_actor") a.actor.params
  fsWrite fs3 (filename ++ "_actor_hyp_params") a.actor_optimizer.state

/-- `DDPG.load` (`src/agent.py:154-161`): four `torch.load` /
`load_state_dict` pairs in source order.  Each successful read is applied
to the agent immediately; a missing file raises, so the method returns
the agent as mutated so far together with `some` missing file name
(`none` on full success) — Python leaves the partial mutations in place
when the exception propagates. -/
def DDPG.load (a : DDPG) (filename : String) (fs : FS) : DDPG × Option String :=
  match fsRead fs (filename ++ "_critic") with
  | none => (a, some (filename ++ "_critic"))
  | some cp =>
    let a1 := { a with critic := { a.critic with params := cp } }
    match fsRead fs (filename ++ "_critic_hyp_params") with
    | none => (a1, some (filename ++ "_critic_hyp_params"))
    | some cs =>
      let a2 := { a1 with critic_optimizer := { a1.critic_optimizer with state := cs } }
      match fsRead fs (filename ++ "_actor") with
      | none => (a2, some (filename ++ "_actor"))
      | some ap =>
        let a3 := { a2 with actor := { a2.actor with params := ap } }
        match fsRead fs (filename ++ "_actor_hyp_params") with
        | none => (a3, some (filename ++ "_actor_hyp_params"))
        | some asd =>
          ({ a3 with actor_optimizer := { a3.actor_optimizer with state := asd } }, none)

/-! ## Concrete fixtures used by witnesses and counterexamples -/

/-- A concrete actor architecture: the identity on the input vector. -/
def idArch : List ℚ → List ℚ → List ℚ := fun _ v => v

/-- A concrete critic architecture: the sum of the input vector. -/
def sumArch : List ℚ → List ℚ → ℚ := fun _ v => v.foldr (· + ·) 0

/-- A concrete optimizer update rule: plain gradient descent with unit
rate and unchanged state. -/
def gdStep : List ℚ → List ℚ → List ℚ → List ℚ × List ℚ :=
  fun st p g => (List.zipWith (fun x y => x - y) p g, st)

/-- The empty gradient oracle. -/
def zeroG : PTag → List ℚ := fun _ => []

/-- A gradient oracle assigning the one-element gradient `[1]` to every
parameter group. -/
def gOne : PTag → List ℚ := fun _ => [1]

/-- A concrete agent: actor parameter `[1]`, critic parameter `[2]`,
batch size 1, empty buffer. -/
def agentW : DDPG :=
  DDPG.init ⟨[1], [0], idArch⟩ ⟨[2], [0], sumArch⟩ (1/100) (1/100) (99/100) 1 gdStep gdStep

/-- A second concrete agent with the same parameter shapes as `agentW`
but different values. -/
def agentW2 : DDPG :=
  DDPG.init ⟨[9], [0], idArch⟩ ⟨[7], [0], sumArch⟩ 1 1 (1/2) 2 gdStep gdStep

/-- A concrete transition. -/
def trW : Transition := ⟨[1], [2], 3, [4], false⟩

/-- `agentW` with one stored transition, so `update()` passes its
batch-size precondition. -/
def agentU : DDPG := { agentW with buffer := ⟨10000, [trW]⟩ }

/-- An agent whose online critic parameter (`[1]`) differs from its
target critic parameter (`[0]`): the situation in which a soft update
must change the target. -/
def agentC1 : DDPG :=
  { (DDPG.init ⟨[], [], idArch⟩ ⟨[1], [0], sumArch⟩ 0 0 (99/100) 1 gdStep gdStep) with
    critic_target := ⟨[0], [0], sumArch⟩ }

/-- A store holding the critic artifacts of prefix `p` but neither actor
artifact. -/
def fsPartial : FS := [("p_critic", [5]), ("p_critic_hyp_params", [7])]

/-! ## Helper lemmas -/

/-- The critic loss reaches exactly the online critic parameter group:
`y` enters only through `.detach()`. -/
theorem criticLossOf_deps (a : DDPG) (ts : List Transition) :
    (criticLossOf a ts).deps = [PTag.criticOn] := rfl

/-- The actor loss reaches the online actor and, through the critic
forward pass, the online critic parameter group — and no target group. -/
theorem actorLossOf_deps (a : DDPG) (ts : List Transition) :
    (actorLossOf a ts).deps = [PTag.actorOn, PTag.criticOn] := rfl

/-- Gradient accumulation into a freshly zeroed buffer yields exactly the
new gradient. -/
theorem zipWith_add_replicate_zero (v : List ℚ) (n : ℕ) (h : v.length = n) :
    List.zipWith (· + ·) (List.replicate n (0 : ℚ)) v = v := by
  induction v generalizing n with
  | nil => cases h; rfl
  | cons x xs ih =>
    cases h
    simp [List.replicate, ih xs.length rfl]

/-! ## C10: constructor fixes `tau = 0.05` and buffer capacity 10000 -/

/-- C10: for every choice of the constructor arguments of
`DDPG.__init__` (the two networks, the two learning rates, the discount
rate and the batch size — together with the opaque Adam update rules the
two `optim.Adam` calls bring in), the constructed agent has soft-update
rate `tau = 0.05` and a fresh replay buffer of capacity 10000; neither
value is configurable through the constructor interface. -/
theorem init_fixes_tau_and_buffer_capacity (Actor : ActorNet) (Critic : CriticNet)
    (actor_lr critic_lr disc_rate : ℚ) (batch_size : ℕ)
    (adamA adamC : List ℚ → List ℚ → List ℚ → List ℚ × List ℚ) :
    (DDPG.init Actor Critic actor_lr critic_lr disc_rate batch_size adamA adamC).tau = 1/20
    ∧ (DDPG.init Actor Critic actor_lr critic_lr disc_rate batch_size adamA adamC).buffer.capacity
        = 10000
    ∧ (DDPG.init Actor Critic actor_lr critic_lr disc_rate batch_size adamA adamC).buffer.data
        = [] := by
  refine ⟨?_, rfl, rfl⟩
  norm_num [DDPG.init]

/-! ## C2: `update()` is a no-op below the batch-size precondition -/

/-- C2: whenever the replay buffer holds strictly fewer transitions than
`batch_size`, `update()` returns immediately with the whole agent state —
actor and critic parameters and both optimizer states included —
unchanged, and performs no observable operation. -/
theorem update_noop_when_buffer_small (a : DDPG) (pick : List ℕ)
    (gC gA : PTag → List ℚ) (h : a.buffer.len < a.batch_size) :
    a.update pick gC gA = (a, []) := by
  unfold DDPG.update
  rw [if_pos h]

/-- Witness for C2 at a concrete agent with an empty buffer. -/
theorem update_noop_when_buffer_small_witness :
    agentW.buffer.len < agentW.batch_size
    ∧ DDPG.update agentW [] zeroG zeroG = (agentW, []) :=
  ⟨by decide, update_noop_when_buffer_small agentW [] zeroG zeroG (by decide)⟩

/-! ## C1: `polyak_update()` computes the blend but never stores it -/

/-- C1 (code evaluated at the failing input): on an agent with online
critic parameter `1`, target critic parameter `0` and `tau = 0.05`, the
loop body of `polyak_update` computes the blended value
`0 * (1 - 0.05) + 1 * 0.05 = 1/20 ≠ 0`, yet after the call the stored
target parameter is still `0`: the assignment `trg_param = ...` rebinds
the loop variable instead of writing the blend back, so the post-call
target value never differs from the pre-call one even though online and
target parameters differ. -/
theorem polyak_update_discards_blend :
    agentC1.critic.params = [1]
    ∧ agentC1.polyak_update.critic_target.params = [0]
    ∧ polyakBlend agentC1.tau 0 1 = 1/20
    ∧ (1/20 : ℚ) ≠ 0
    ∧ agentC1.polyak_update = agentC1 := by
  refine ⟨rfl, rfl, ?_, by norm_num, rfl⟩
  norm_num [polyakBlend, agentC1, DDPG.init]

/-! ## C6: targets are construction-time value copies, untouched by `update()` -/

/-- C6: at construction the target networks are value-copies of the
online networks (`deepcopy`), and `update()` never changes either target
network — neither its parameters, its gradient buffer, nor its
architecture — whatever the batch, gradients, or buffer contents; in
this by-value model the copies also share no storage with the online
networks, so online mutation cannot alias into the targets. -/
theorem targets_value_copies_and_update_preserves
    (Actor : ActorNet) (Critic : CriticNet) (actor_lr critic_lr disc_rate : ℚ)
    (batch_size : ℕ) (adamA adamC : List ℚ → List ℚ → List ℚ → List ℚ × List ℚ)
    (a : DDPG) (pick : List ℕ) (gC gA : PTag → List ℚ) :
    (DDPG.init Actor Critic actor_lr critic_lr disc_rate batch_size adamA adamC).actor_target
      = (DDPG.init Actor Critic actor_lr critic_lr disc_rate batch_size adamA adamC).actor
    ∧ (DDPG.init Actor Critic actor_lr critic_lr disc_rate batch_size adamA adamC).critic_target
      = (DDPG.init Actor Critic actor_lr critic_lr disc_rate batch_size adamA adamC).critic
    ∧ (a.update pick gC gA).1.actor_target = a.actor_target
    ∧ (a.update pick gC gA).1.critic_target = a.critic_target := by
  refine ⟨rfl, rfl, ?_, ?_⟩ <;>
  · unfold DDPG.update
    split <;> rfl

/-! ## C5: `act` with zero exploration noise is deterministic and bounded -/

/-- C5: for every agent and state, `act(state, sigma=0)` returns (the
function is total), its result does not depend on the Gaussian draw `z`
behind `.sample()` — so two calls with identical state and unchanged
actor parameters yield identical output — and every component of the
returned action lies within the configured bounds `[-2, 2]`. -/
theorem act_sigma_zero_deterministic_and_bounded (a : DDPG) (s : List ℚ) (z₁ z₂ : ℚ) :
    a.act s 0 z₁ = a.act s 0 z₂
    ∧ ∀ v ∈ (a.act s 0 z₁).vals, -2 ≤ v ∧ v ≤ 2 := by
  constructor
  · simp [DDPG.act, normalSample]
  · intro v hv
    simp only [DDPG.act, Tensor.detach, Tensor.clip, List.mem_map] at hv
    obtain ⟨x, -, rfl⟩ := hv
    exact ⟨le_min (le_max_right _ _) (by norm_num), min_le_right _ _⟩

/-- Witness for C5: on `agentW` (identity actor, parameter `[1]`) at
state `[5]`, the two calls with different draws agree and the returned
component `2` is in bounds. -/
theorem act_sigma_zero_witness :
    agentW.act [5] 0 0 = agentW.act [5] 0 1
    ∧ ((-2 : ℚ) ≤ 2 ∧ (2 : ℚ) ≤ 2) := by
  refine ⟨(act_sigma_zero_deterministic_and_bounded agentW [5] 0 1).1,
    (act_sigma_zero_deterministic_and_bounded agentW [5] 0 1).2 2 ?_⟩
  have hv : (agentW.act [5] 0 0).vals = [2] := by
    simp [agentW, DDPG.init, DDPG.act, idArch, normalSample, Tensor.addBroadcast,
      Tensor.clip, Tensor.detach, netForward1]
    norm_num
  rw [hv]
  exact List.mem_singleton.mpr rfl

/-! ## C9: `act` structure — forward, noise, clip, detach -/

/-- C9: for every agent, state, noise level and draw, `act` computes the
actor forward pass, adds the (broadcast, zero-mean, `sigma`-scaled)
Gaussian noise sample, clamps every component to the fixed bounds
`[-2.0, 2.0]`, and detaches the result: the returned tensor reaches no
parameter group (`deps = []`, a plain numeric value outside any
computation graph) and each of its components lies in `[-2, 2]`. -/
theorem act_formula_bounded_detached (a : DDPG) (s : List ℚ) (sigma z : ℚ) :
    (a.act s sigma z).deps = []
    ∧ (a.act s sigma z).vals
        = (a.actor.arch a.actor.params s).map (fun x => min (max (x + sigma * z) (-2)) 2)
    ∧ ∀ v ∈ (a.act s sigma z).vals, -2 ≤ v ∧ v ≤ 2 := by
  refine ⟨rfl, ?_, ?_⟩
  · simp [DDPG.act, normalSample, Tensor.detach, Tensor.clip, Tensor.addBroadcast,
      netForward1]
  · intro v hv
    simp only [DDPG.act, Tensor.detach, Tensor.clip, List.mem_map] at hv
    obtain ⟨x, -, rfl⟩ := hv
    exact ⟨le_min (le_max_right _ _) (by norm_num), min_le_right _ _⟩

/-- Witness for C9: on `agentW` at state `[5]` with `sigma = 1`, `z = 1`,
the returned action is clipped to `[2]`, detached, and its component `2`
is in bounds. -/
theorem act_formula_witness :
    (agentW.act [5] 1 1).deps = []
    ∧ (agentW.act [5] 1 1).vals
        = (agentW.actor.arch agentW.actor.params [5]).map
            (fun x => min (max (x + 1 * 1) (-2)) 2)
    ∧ ((-2 : ℚ) ≤ 2 ∧ (2 : ℚ) ≤ 2) :=
  by
  refine ⟨(act_formula_bounded_detached agentW [5] 1 1).1,
    (act_formula_bounded_detached agentW [5] 1 1).2.1,
    (act_formula_bounded_detached agentW [5] 1 1).2.2 2 ?_⟩
  have hv : (agentW.act [5] 1 1).vals = [2] := by
    simp [agentW, DDPG.init, DDPG.act, idArch, normalSample, Tensor.addBroadcast,
      Tensor.clip, Tensor.detach, netForward1]
    norm_num
  rw [hv]
  exact List.mem_singleton.mpr rfl

/-! ## C3: regression target, terminal zeroing, MSE with detached target -/

/-- `zipWith` over two maps of the same list is a single map: the
pointwise shape of every batched tensor operation in `update()`. -/
theorem zipWith_map_map {α β γ δ : Type} (h : β → γ → δ) (f : α → β) (g : α → γ)
    (l : List α) :
    List.zipWith h (l.map f) (l.map g) = l.map (fun x => h (f x) (g x)) := by
  induction l with
  | nil => rfl
  | cons x xs ih => simp only [List.map_cons, List.zipWith_cons_cons, ih]

/-- Per-transition form of the bootstrapped target `y` computed at
`src/agent.py:125-130`. -/
theorem targetY_vals (a : DDPG) (ts : List Transition) :
    (targetY a ts).vals = ts.map (fun t =>
      t.reward + a.gamma * (1 - (if t.done then (1 : ℚ) else 0)) *
        a.critic_target.arch a.critic_target.params
          (t.next_state ++ a.actor_target.arch a.actor_target.params t.next_state)) := by
  simp only [targetY, BScalar.add, BScalar.mul, BScalar.smul, BScalar.oneSub,
    criticForwardB, netForwardB, hstackB, List.map_map, zipWith_map_map]
  apply List.map_congr_left
  intro t _
  simp [Function.comp]

/-- Per-transition form of the squared advantage computed at
`src/agent.py:131-132`. -/
theorem advantage_sq_vals (a : DDPG) (ts : List Transition) :
    (((criticForwardB PTag.criticOn a.critic
        (hstackB ⟨ts.map (fun t => t.state), []⟩ ⟨ts.map (fun t => t.action), []⟩)).sub
          (targetY a ts).detach).pow2).vals
      = ts.map (fun t =>
          (a.critic.arch a.critic.params (t.state ++ t.action)
            - (t.reward + a.gamma * (1 - (if t.done then (1 : ℚ) else 0)) *
                a.critic_target.arch a.critic_target.params
                  (t.next_state ++ a.actor_target.arch a.actor_target.params t.next_state))) ^ 2) := by
  simp only [BScalar.pow2, BScalar.sub, BScalar.detach, criticForwardB, hstackB,
    targetY_vals, List.map_map, zipWith_map_map]
  apply List.map_congr_left
  intro t _
  simp [Function.comp, pow_two]

/-- C3: for every agent and sampled batch, the regression target is
`y = reward + γ·(1 − done)·critic_target(next_state ‖ actor_target(next_state))`
per transition, with `done` a 0/1 indicator that exactly zeroes the
bootstrap term on terminal transitions (`done = true` gives `y = reward`);
the critic loss value is the mean squared error between
`critic(state ‖ action)` and `y`; and the loss's autograd graph reaches
only the online critic parameters — `y` enters through `.detach()`, so no
gradient flows into the target computation. -/
theorem update_regression_target_and_critic_loss (a : DDPG) (ts : List Transition) :
    (targetY a ts).vals = ts.map (fun t =>
        t.reward + a.gamma * (1 - (if t.done then (1 : ℚ) else 0)) *
          a.critic_target.arch a.critic_target.params
            (t.next_state ++ a.actor_target.arch a.actor_target.params t.next_state))
    ∧ (targetY a ts).vals = ts.map (fun t =>
        if t.done then t.reward
        else t.reward + a.gamma *
          a.critic_target.arch a.critic_target.params
            (t.next_state ++ a.actor_target.arch a.actor_target.params t.next_state))
    ∧ (criticLossOf a ts).val =
        (ts.map (fun t =>
          (a.critic.arch a.critic.params (t.state ++ t.action)
            - (t.reward + a.gamma * (1 - (if t.done then (1 : ℚ) else 0)) *
                a.critic_target.arch a.critic_target.params
                  (t.next_state ++ a.actor_target.arch a.actor_target.params t.next_state))) ^ 2)).foldr
            (· + ·) 0 / (ts.length : ℚ)
    ∧ (criticLossOf a ts).deps = [PTag.criticOn] := by
  refine ⟨targetY_vals a ts, ?_, ?_, rfl⟩
  · rw [targetY_vals a ts]
    apply List.map_congr_left
    intro t _
    cases h : t.done <;> simp [h]
  · show (((criticForwardB PTag.criticOn a.critic
        (hstackB ⟨ts.map (fun t => t.state), []⟩ ⟨ts.map (fun t => t.action), []⟩)).sub
          (targetY a ts).detach).pow2).mean.val = _
    rw [BScalar.mean, advantage_sq_vals a ts, List.length_map]

/-! ## C8: critic-then-actor ordering, one optimizer step each, zeroed grads -/

/-- C8: in every `update()` call that passes the batch-size precondition,
the observable trace is exactly: critic loss computed, critic gradients
zeroed, critic backward, critic optimizer step, actor loss computed,
actor gradients zeroed, actor backward, actor optimizer step — so the
critic update completes in full strictly before the actor loss is
computed, and the actor loss is built from the newly-stepped critic
parameters (the `actor_loss_ev` payload equals the critic parameters
produced by the critic step).  Each optimizer steps exactly once, and
because the gradient buffers are zeroed before each backward pass, each
step consumes exactly the fresh gradient of its own loss (`gC`/`gA`),
independent of whatever gradients had accumulated before the call: the
final parameters are one step from the pre-call parameters. -/
theorem update_order_and_single_steps (a : DDPG) (pick : List ℕ)
    (gC gA : PTag → List ℚ)
    (hlen : a.batch_size ≤ a.buffer.len)
    (hgc : (gC PTag.criticOn).length = a.critic.params.length)
    (hga : (gA PTag.actorOn).length = a.actor.params.length) :
    (a.update pick gC gA).2 =
      [Ev.critic_loss_ev a.critic.params,
       Ev.zero_grad_ev .criticN, Ev.backward_ev .criticN, Ev.step_ev .criticN,
       Ev.actor_loss_ev
         (a.critic_optimizer.stepFn a.critic_optimizer.state a.critic.params
           (gC PTag.criticOn)).1,
       Ev.zero_grad_ev .actorN, Ev.backward_ev .actorN, Ev.step_ev .actorN]
    ∧ (a.update pick gC gA).1.critic.params =
        (a.critic_optimizer.stepFn a.critic_optimizer.state a.critic.params
          (gC PTag.criticOn)).1
    ∧ (a.update pick gC gA).1.actor.params =
        (a.actor_optimizer.stepFn a.actor_optimizer.state a.actor.params
          (gA PTag.actorOn)).1
    ∧ ((a.update pick gC gA).2.count (Ev.step_ev .criticN) = 1
        ∧ (a.update pick gC gA).2.count (Ev.step_ev .actorN) = 1) := by
  have hsplit : ¬ (a.buffer.len < a.batch_size) := not_lt.mpr hlen
  have hc : List.zipWith (· + ·) (List.replicate a.critic.params.length (0 : ℚ))
      (gC PTag.criticOn) = gC PTag.criticOn :=
    zipWith_add_replicate_zero _ _ hgc
  have ha : List.zipWith (· + ·) (List.replicate a.actor.params.length (0 : ℚ))
      (gA PTag.actorOn) = gA PTag.actorOn :=
    zipWith_add_replicate_zero _ _ hga
  unfold DDPG.update
  rw [if_neg hsplit]
  refine ⟨?_, ?_, ?_, ?_, ?_⟩ <;>
    simp [applyBackward, criticZeroGrad, actorZeroGrad, NNModule.accumGrad,
      criticLossOf_deps, actorLossOf_deps, hc, ha]

/-- Witness for C8: on the one-transition agent `agentU` (batch size 1)
with unit gradients and the gradient-descent step rule, the critic
parameter moves from `[2]` to `[1]` and the actor loss is computed from
the stepped critic. -/
theorem update_order_witness :
    agentU.batch_size ≤ agentU.buffer.len
    ∧ (agentU.update [0] gOne gOne).1.critic.params = [1]
    ∧ (agentU.update [0] gOne gOne).2.count (Ev.step_ev .criticN) = 1 := by
  have h := update_order_and_single_steps agentU [0] gOne gOne (by decide) (by decide)
    (by decide)
  refine ⟨by decide, ?_, h.2.2.2.1⟩
  rw [h.2.1]
  simp [agentU, agentW, DDPG.init, gdStep, gOne]
  norm_num

/-! ## C4: `load` raises on a missing artifact, but is not atomic -/

/-- Appending distinct suffixes to the same prefix yields distinct keys. -/
theorem append_ne_of_suffix_ne (f : String) {s t : String} (h : s ≠ t) :
    f ++ s ≠ f ++ t := by
  intro he
  apply h
  have hd : f.data ++ s.data = f.data ++ t.data := congrArg String.data he
  exact String.ext (List.append_cancel_left hd)

/-- Counterexample to C4 as stated: with a store holding the two critic
artifacts of prefix `p` but no actor artifact, `load` fails (a
`FileNotFoundError` is raised on `p_actor`) yet the agent's critic
parameters have already been overwritten — the failure is not atomic, the
agent is left half-restored. -/
theorem load_not_atomic_counterexample :
    (agentW.load "p" fsPartial).2 = some "p_actor"
    ∧ agentW.critic.params = [2]
    ∧ (agentW.load "p" fsPartial).1.critic.params = [5]
    ∧ (agentW.load "p" fsPartial).1.critic.params ≠ agentW.critic.params := by
  refine ⟨rfl, rfl, rfl, ?_⟩
  decide

/-- C4 (amended): `load(path_prefix)` fails with a not-found error
exactly when one of the four artifacts is missing, but restoration is
sequential rather than atomic, in the order critic parameters, critic
optimizer state, actor parameters, actor optimizer state: for every
possible first missing artifact the resulting agent is characterised
completely — exactly the artifacts read before the first missing one have
been applied to the agent, and every other component of the agent state
(the artifacts from the missing one onward included) is untouched; if the
very first artifact is missing the agent is entirely unchanged, and if
all four are present the whole state is restored and the load succeeds. -/
theorem load_sequential_semantics (a : DDPG) (f : String) (fs : FS) :
    ((a.load f fs).2 = none ↔
      ((fsRead fs (f ++ "_critic")).isSome ∧ (fsRead fs (f ++ "_critic_hyp_params")).isSome
        ∧ (fsRead fs (f ++ "_actor")).isSome ∧ (fsRead fs (f ++ "_actor_hyp_params")).isSome))
    ∧ (fsRead fs (f ++ "_critic") = none →
        a.load f fs = (a, some (f ++ "_critic")))
    ∧ (∀ cp, fsRead fs (f ++ "_critic") = some cp →
        fsRead fs (f ++ "_critic_hyp_params") = none →
        a.load f fs =
          ({ a with critic := { a.critic with params := cp } },
            some (f ++ "_critic_hyp_params")))
    ∧ (∀ cp cs, fsRead fs (f ++ "_critic") = some cp →
        fsRead fs (f ++ "_critic_hyp_params") = some cs →
        fsRead fs (f ++ "_actor") = none →
        a.load f fs =
          ({ a with critic := { a.critic with params := cp }
                    critic_optimizer := { a.critic_optimizer with state := cs } },
            some (f ++ "_actor")))
    ∧ (∀ cp cs ap, fsRead fs (f ++ "_critic") = some cp →
        fsRead fs (f ++ "_critic_hyp_params") = some cs →
        fsRead fs (f ++ "_actor") = some ap →
        fsRead fs (f ++ "_actor_hyp_params") = none →
        a.load f fs =
          ({ a with critic := { a.critic with params := cp }
                    critic_optimizer := { a.critic_optimizer with state := cs }
                    actor := { a.actor with params := ap } },
            some (f ++ "_actor_hyp_params")))
    ∧ (∀ cp cs ap asd, fsRead fs (f ++ "_critic") = some cp →
        fsRead fs (f ++ "_critic_hyp_params") = some cs →
        fsRead fs (f ++ "_actor") = some ap →
        fsRead fs (f ++ "_actor_hyp_params") = some asd →
        a.load f fs =
          ({ a with critic := { a.critic with params := cp }
                    critic_optimizer := { a.critic_optimizer with state := cs }
                    actor := { a.actor with params := ap }
                    actor_optimizer := { a.actor_optimizer with state := asd } },
            none)) := by
  unfold DDPG.load
  cases h1 : fsRead fs (f ++ "_critic") with
  | none => simp [h1]
  | some cp =>
    cases h2 : fsRead fs (f ++ "_critic_hyp_params") with
    | none => simp [h1, h2]
    | some cs =>
      cases h3 : fsRead fs (f ++ "_actor") with
      | none => simp [h1, h2, h3]
      | some ap =>
        cases h4 : fsRead fs (f ++ "_actor_hyp_params") with
        | none => simp [h1, h2, h3, h4]
        | some asd =>
          simp [h1, h2, h3, h4]
          intro cp1 cs1 ap1 asd1 hcp hcs hap hasd
          exact ⟨hap, hcp, hasd, hcs⟩

/-- Witness for the amended C4 at concrete agents and stores: on the
empty store the load fails on the first artifact with the agent entirely
unchanged, and on a store holding only the two critic artifacts the load
applies exactly those two, fails on `p_actor`, and leaves the actor
parameters and actor optimizer state untouched. -/
theorem load_sequential_witness :
    agentW.load "p" [] = (agentW, some ("p" ++ "_critic"))
    ∧ agentW.load "p" fsPartial =
        ({ agentW with critic := { agentW.critic with params := [5] }
                       critic_optimizer := { agentW.critic_optimizer with state := [7] } },
          some ("p" ++ "_actor")) :=
  ⟨(load_sequential_semantics agentW "p" []).2.1 rfl,
   (load_sequential_semantics agentW "p" fsPartial).2.2.2.1 [5] [7]
     (by decide) (by decide) (by decide)⟩

/-! ## C7: four named artifacts and a bit-identical round trip -/

/-- Reading back the `_critic` artifact of a save. -/
theorem fsRead_save_critic (a : DDPG) (f : String) (fs : FS) :
    fsRead (a.save f fs) (f ++ "_critic") = some a.critic.params := by
  have n1 : (f ++ "_actor_hyp_params") ≠ (f ++ "_critic") :=
    append_ne_of_suffix_ne f (by decide)
  have n2 : (f ++ "_actor") ≠ (f ++ "_critic") :=
    append_ne_of_suffix_ne f (by decide)
  have n3 : (f ++ "_critic_hyp_params") ≠ (f ++ "_critic") :=
    append_ne_of_suffix_ne f (by decide)
  simp [fsRead, fsWrite, DDPG.save, List.find?, n1, n2, n3]

/-- Reading back the `_critic_hyp_params` artifact of a save. -/
theorem fsRead_save_critic_hyp (a : DDPG) (f : String) (fs : FS) :
    fsRead (a.save f fs) (f ++ "_critic_hyp_params") = some a.critic_optimizer.state := by
  have n1 : (f ++ "_actor_hyp_params") ≠ (f ++ "_critic_hyp_params") :=
    append_ne_of_suffix_ne f (by decide)
  have n2 : (f ++ "_actor") ≠ (f ++ "_critic_hyp_params") :=
    append_ne_of_suffix_ne f (by decide)
  simp [fsRead, fsWrite, DDPG.save, List.find?, n1, n2]

/-- Reading back the `_actor` artifact of a save. -/
theorem fsRead_save_actor (a : DDPG) (f : String) (fs : FS) :
    fsRead (a.save f fs) (f ++ "_actor") = some a.actor.params := by
  have n1 : (f ++ "_actor_hyp_params") ≠ (f ++ "_actor") :=
    append_ne_of_suffix_ne f (by decide)
  simp [fsRead, fsWrite, DDPG.save, List.find?, n1]

/-- Reading back the `_actor_hyp_params` artifact of a save. -/
theorem fsRead_save_actor_hyp (a : DDPG) (f : String) (fs : FS) :
    fsRead (a.save f fs) (f ++ "_actor_hyp_params") = some a.actor_optimizer.state := by
  simp [fsRead, fsWrite, DDPG.save, List.find?]

/-- C7: `save(path_prefix)` writes exactly the four artifacts keyed by
the suffixes `_critic`, `_critic_hyp_params`, `_actor` and
`_actor_hyp_params` (holding critic parameters, critic optimizer state,
actor parameters and actor optimizer state; any other key reads exactly
as before the save), and `save` followed by `load` into a freshly
constructed agent with identical network shapes succeeds and reproduces
bit-identical actor and critic parameters and optimizer states. -/
theorem save_load_roundtrip (a b : DDPG) (f : String) (fs : FS)
    (hA : b.actor.params.length = a.actor.params.length)
    (hC : b.critic.params.length = a.critic.params.length) :
    fsRead (a.save f fs) (f ++ "_critic") = some a.critic.params
    ∧ fsRead (a.save f fs) (f ++ "_critic_hyp_params") = some a.critic_optimizer.state
    ∧ fsRead (a.save f fs) (f ++ "_actor") = some a.actor.params
    ∧ fsRead (a.save f fs) (f ++ "_actor_hyp_params") = some a.actor_optimizer.state
    ∧ (∀ k, k ≠ f ++ "_critic" → k ≠ f ++ "_critic_hyp_params" → k ≠ f ++ "_actor" →
        k ≠ f ++ "_actor_hyp_params" → fsRead (a.save f fs) k = fsRead fs k)
    ∧ (b.load f (a.save f fs)).2 = none
    ∧ (b.load f (a.save f fs)).1.critic.params = a.critic.params
    ∧ (b.load f (a.save f fs)).1.critic_optimizer.state = a.critic_optimizer.state
    ∧ (b.load f (a.save f fs)).1.actor.params = a.actor.params
    ∧ (b.load f (a.save f fs)).1.actor_optimizer.state = a.actor_optimizer.state := by
  have h1 := fsRead_save_critic a f fs
  have h2 := fsRead_save_critic_hyp a f fs
  have h3 := fsRead_save_actor a f fs
  have h4 := fsRead_save_actor_hyp a f fs
  refine ⟨h1, h2, h3, h4, ?_, ?_⟩
  · intro k k1 k2 k3 k4
    have m1 : f ++ "_critic" ≠ k := Ne.symm k1
    have m2 : f ++ "_critic_hyp_params" ≠ k := Ne.symm k2
    have m3 : f ++ "_actor" ≠ k := Ne.symm k3
    have m4 : f ++ "_actor_hyp_params" ≠ k := Ne.symm k4
    simp [fsRead, fsWrite, DDPG.save, List.find?, m1, m2, m3, m4]
  · unfold DDPG.load
    rw [h1, h2, h3, h4]
    exact ⟨rfl, rfl, rfl, rfl, rfl⟩

/-- Witness for C7: round trip from `agentW` into `agentW2` (same
parameter shapes, different values) through an empty store restores
`agentW`'s critic parameters and succeeds. -/
theorem save_load_roundtrip_witness :
    agentW2.actor.params.length = agentW.actor.params.length
    ∧ agentW2.critic.params.length = agentW.critic.params.length
    ∧ (agentW2.load "ck" (agentW.save "ck" [])).2 = none
    ∧ (agentW2.load "ck" (agentW.save "ck" [])).1.critic.params = agentW.critic.params := by
  have h := save_load_roundtrip agentW agentW2 "ck" [] (by decide) (by decide)
  exact ⟨by decide, by decide, h.2.2.2.2.2.1, h.2.2.2.2.2.2.1⟩
